import Mathlib

/-!
Verification of the emotional-signal fusion and response-arbitration engine
of the Mental-Care-Bot backend (`backend/chatbot.py`, `backend/emotion_detector.py`).

The Python code is shallowly embedded: each method becomes a Lean function
over explicit inputs.  Python strings are Lean `String`s; the `in` substring
test becomes `strIn`; `str.lower()` becomes `lowerStr` (ASCII lowering, which
agrees with Python on the keyword vocabulary, which is all ASCII); dicts with
a fixed key set become functions from an inductive label type; the external
OpenAI call becomes an `Except`-valued outcome parameter; `random.choice`
becomes selection by an explicit index parameter.
-/

namespace MentalCareBot

/-- ASCII lowering of one character, the fragment of Python `str.lower()`
exercised by the keyword vocabularies (all ASCII). -/
def lowerChar (c : Char) : Char :=
  if 'A' ≤ c ∧ c ≤ 'Z' then Char.ofNat (c.toNat + 32) else c

/-- `message.lower()` on the embedded strings. -/
def lowerStr (s : String) : String :=
  ⟨s.data.map lowerChar⟩

/-- `needle` is a prefix of `hay` (over character lists). -/
def isPrefix : List Char → List Char → Bool
  | [], _ => true
  | _ :: _, [] => false
  | a :: as, b :: bs => a == b && isPrefix as bs

/-- `needle` occurs as a contiguous substring of `hay` (over character lists). -/
def isSubstr : List Char → List Char → Bool
  | n, [] => n.isEmpty
  | n, h :: t => isPrefix n (h :: t) || isSubstr n t

/-- Python's `needle in hay` on strings: contiguous substring containment. -/
def strIn (needle hay : String) : Bool :=
  isSubstr needle.data hay.data

/-- `sum(1 for w in kws if w in m)`: how many of the keywords occur in `m`. -/
def countHits (kws : List String) (m : String) : Nat :=
  kws.countP (fun w => strIn w m)

/-- `len(message.split())`: the number of maximal whitespace-free chunks.
`inWord` records whether the previous character was part of a word. -/
def countWordsAux : List Char → Bool → Nat
  | [], _ => 0
  | c :: cs, inWord =>
    if c.isWhitespace then countWordsAux cs false
    else (if inWord then 0 else 1) + countWordsAux cs true

def wordCount (s : String) : Nat :=
  countWordsAux s.data false

/-- The sentiment categories `_analyze_sentiment` can return. -/
inductive SentimentCategory where
  | crisis | stress | sadness | anger | fear | neutral
  deriving DecidableEq, BEq, Repr

/-- `stress_keywords` in `TherapeuticChatbot._analyze_sentiment`. -/
def stressKeywords : List String :=
  ["stressed", "overwhelmed", "pressure", "anxious", "worried", "panic",
   "tension", "nervous", "worries", "stressing", "overwhelm"]

/-- `sadness_keywords` in `TherapeuticChatbot._analyze_sentiment`. -/
def sadnessKeywords : List String :=
  ["sad", "depressed", "down", "hopeless", "empty", "lonely", "miserable",
   "unhappy", "sorrow", "grief", "melancholy", "blue", "downhearted"]

/-- `anger_keywords` in `TherapeuticChatbot._analyze_sentiment`. -/
def angerKeywords : List String :=
  ["angry", "furious", "mad", "frustrated", "annoyed", "irritated", "rage",
   "livid", "enraged", "resentful", "bitter", "hostile"]

/-- `fear_keywords` in `TherapeuticChatbot._analyze_sentiment`. -/
def fearKeywords : List String :=
  ["afraid", "scared", "fear", "terrified", "worried", "nervous", "anxious",
   "panic", "dread", "apprehensive", "frightened", "intimidated"]

/-- `crisis_keywords` in `TherapeuticChatbot._analyze_sentiment`. -/
def crisisKeywords : List String :=
  ["suicide", "kill myself", "end it all", "not worth living", "want to die",
   "hurt myself", "self harm", "cutting", "overdose"]

/-- `crisis_indicators` in `TherapeuticChatbot.detect_crisis`. -/
def crisisIndicators : List String :=
  ["suicide", "kill myself", "end it all", "not worth living",
   "want to die", "hurt myself", "self harm", "cutting",
   "overdose", "no point", "give up", "end my life"]

/-- Python's `max(pairs, key=lambda x: x[1])`: the first pair with the maximal
second component (a later pair replaces the best only when strictly greater). -/
def maxFirst (b : SentimentCategory × Nat) :
    List (SentimentCategory × Nat) → SentimentCategory × Nat
  | [] => b
  | x :: xs => maxFirst (if x.2 > b.2 then x else b) xs

/-- `TherapeuticChatbot._analyze_sentiment`.  The sentiment dict is iterated
in insertion order `crisis, stress, sadness, anger, fear, neutral`, and the
`max` runs over the non-crisis items in that order. -/
def analyzeSentiment (message : String) : SentimentCategory :=
  let ml := lowerStr message
  let cr := countHits crisisKeywords ml
  let st := countHits stressKeywords ml
  let sa := countHits sadnessKeywords ml
  let an := countHits angerKeywords ml
  let fe := countHits fearKeywords ml
  if cr > 0 then .crisis
  else
    let best := maxFirst (.stress, st) [(.sadness, sa), (.anger, an), (.fear, fe), (.neutral, 0)]
    if best.2 > 0 then best.1 else .neutral

/-- `TherapeuticChatbot.detect_crisis`. -/
def detectCrisis (message : String) : Bool :=
  crisisIndicators.any (fun p => strIn p (lowerStr message))

/-- The spec's own words for the non-crisis selection (§4.2): the category
with the highest count, ties broken by the fixed priority
stress > sadness > anger > fear, `neutral` when every count is zero.
Stated independently of the code, to be compared with `analyzeSentiment`. -/
def specSelect (st sa an fe : Nat) : SentimentCategory :=
  if st = 0 ∧ sa = 0 ∧ an = 0 ∧ fe = 0 then .neutral
  else if st ≥ sa ∧ st ≥ an ∧ st ≥ fe then .stress
  else if sa ≥ an ∧ sa ≥ fe then .sadness
  else if an ≥ fe then .anger
  else .fear

/-- Index of the first occurrence of `x` (the list's length when absent):
the spec-side notion of which label occurs first. -/
def firstIdx (x : String) : List String → Nat
  | [] => 0
  | y :: ys => if y = x then 0 else firstIdx x ys + 1

/-- One entry of `emotion_history`: a dict read with
`e.get('dominant_emotion', 'neutral')`, so only that (possibly missing)
key matters. -/
structure EmotionRecord where
  dominantEmotion : Option String

/-- The dict built by `_build_emotional_context`. -/
structure EmotionalContext where
  current : Option String
  recentPattern : Option String

/-- One fold step of Python `max` / `Counter.most_common`: keep the current
best unless the next element is strictly better. -/
def pickFirstMax (f : String → Nat) (b : String) : List String → String
  | [] => b
  | x :: xs => pickFirstMax f (if f x > f b then x else b) xs

/-- `Counter(l).most_common(1)[0][0]` for non-empty `l` (`none` for `[]`):
the element with the maximal multiplicity in `l`, ties resolved in favour of
the element first encountered while scanning `l` left to right. -/
def modeOf : List String → Option String
  | [] => none
  | h :: t => some (pickFirstMax (fun x => (h :: t).count x) h t)

/-- Python `l[-5:]`. -/
def last5 {α : Type} (l : List α) : List α :=
  l.drop (l.length - 5)

/-- `recent_emotions`: the dominant labels of the last five history entries,
`'neutral'` when an entry lacks the key. -/
def windowOf (emotionHistory : List EmotionRecord) : List String :=
  (last5 emotionHistory).map (fun r => r.dominantEmotion.getD "neutral")

/-- `TherapeuticChatbot._build_emotional_context`.  A falsy `current_emotion`
(Python `None` or the empty string) yields `current = none`. -/
def buildEmotionalContext (currentEmotion : Option String)
    (emotionHistory : List EmotionRecord) : EmotionalContext :=
  { current := match currentEmotion with
      | some s => if s = "" then none else some s
      | none => none
    recentPattern :=
      if emotionHistory.isEmpty then none
      else modeOf (windowOf emotionHistory) }

/-- `crisis_responses` in `_generate_rule_based_response`. -/
def crisisResponses : List String :=
  ["I'm really concerned about what you're sharing. Your life has value, and there are people who want to help. Please reach out to a crisis helpline right now: National Suicide Prevention Lifeline at 988, or Crisis Text Line by texting HOME to 741741. You don't have to go through this alone.",
   "I hear that you're in a lot of pain right now, and I'm worried about you. Please know that there is help available. If you're in immediate danger, please call 911 or go to your nearest emergency room. You can also call the National Suicide Prevention Lifeline at 988 - they're available 24/7.",
   "Thank you for sharing this with me. I want you to know that your feelings are valid, but I'm very concerned about your safety. Please reach out for immediate professional help. Call 988 (Suicide Prevention Lifeline) or 911 if you're in immediate danger. There are people trained to help you through this."]

/-- `greeting_responses` in `_generate_rule_based_response`. -/
def greetingResponses : List String :=
  ["Hello. I'm here to listen and support you. How are you feeling today? You can share whatever's on your mind, and I'll be here with you.",
   "Hi there. Thank you for reaching out. I'm here to provide a safe space for you to express yourself. What's on your mind today?",
   "Hello. I'm glad you're here. This is a judgment-free space where you can share your thoughts and feelings. How are you doing today?"]

/-- The stress/anxiety response pool. -/
def stressResponses : List String :=
  ["I can hear that you're feeling stressed right now. That sounds really difficult. Can you tell me more about what's contributing to these feelings?",
   "It sounds like you're experiencing a lot of pressure. That must be overwhelming. What would help you feel a bit more grounded right now?",
   "I understand that stress can feel consuming. You're not alone in feeling this way. What's one thing that's been weighing on you the most?"]

/-- The sadness response pool. -/
def sadnessResponses : List String :=
  ["I hear the sadness in what you're sharing. Thank you for trusting me with these feelings. Can you help me understand what's been making you feel this way?",
   "It sounds like you're going through a really tough time. Your feelings are valid, and I'm here to listen. What's been on your mind lately?",
   "I can sense that you're feeling down. That must be really hard. Would you like to talk about what's been contributing to these feelings?"]

/-- The anger response pool. -/
def angerResponses : List String :=
  ["I can hear the frustration in your words. It sounds like something has really upset you. Can you help me understand what happened?",
   "It seems like you're feeling angry, and that's completely understandable. What's been making you feel this way?",
   "I hear that you're frustrated. Those feelings are valid. Would you like to talk about what's been bothering you?"]

/-- The fear response pool. -/
def fearResponses : List String :=
  ["I can sense that you're feeling afraid or worried. That must be really unsettling. Can you tell me more about what's causing these feelings?",
   "It sounds like fear is really present for you right now. That's a difficult emotion to sit with. What would help you feel a bit safer?",
   "I hear that you're feeling scared. Thank you for sharing that with me. What's been making you feel this way?"]

/-- The fixed feeling-exploration probe. -/
def feelingProbe : String :=
  "I appreciate you sharing how you're feeling. Can you tell me more about what's behind these feelings? Sometimes exploring them can help us understand ourselves better."

/-- The short-message listening prompt. -/
def shortPrompt : String :=
  "I'm listening. Can you tell me more about what's on your mind?"

/-- The mismatch-acknowledgment pool; the first entry is an f-string that
interpolates the detected emotion `e`. -/
def mismatchResponses (e : String) : List String :=
  ["I hear you say you're doing okay, and I want to respect that. I'm also noticing that you might be feeling " ++ e ++ " right now. Sometimes it can be hard to put words to our feelings. Would you like to talk about what's going on?",
   "Thank you for sharing. I want to acknowledge that sometimes our words and our feelings don't always match up, and that's okay. If you'd like to explore what you're experiencing, I'm here to listen.",
   "I hear you, and I also notice there might be more going on beneath the surface. Would you like to talk about what you're really feeling right now?"]

/-- The default reflective-listening pool. -/
def defaultResponses : List String :=
  ["Thank you for sharing that with me. It sounds like that's been really significant for you. Can you help me understand more about how that's been affecting you?",
   "I hear what you're saying. It sounds like this is something that's been on your mind. Can you tell me more about what that's been like for you?",
   "That sounds really important to you. What's it been like for you to experience that?",
   "I appreciate you opening up about this. How have you been coping with these feelings?",
   "It sounds like this has been weighing on you. What would it mean for you if things were different?",
   "I'm listening, and I want to make sure I understand. Can you help me see this from your perspective?",
   "That sounds challenging. What's been the hardest part about this for you?",
   "Thank you for trusting me with this. What do you think might help you feel a bit better?"]

/-- The `greeting` keyword list of `_generate_rule_based_response`. -/
def greetingWords : List String := ["hello", "hi", "hey", "start", "begin"]

/-- The feeling-vocabulary list of `_generate_rule_based_response`. -/
def feelingWords : List String := ["feel", "feeling", "emotion"]

/-- The truthiness test `emotional_context['current'] and
emotional_context['current'] != 'neutral'` (the builder never produces
`some ""`, Python's other falsy string). -/
def currentNonNeutral (ctx : EmotionalContext) : Bool :=
  match ctx.current with
  | some e => e != "" && e != "neutral"
  | none => false

/-- The decision tree of `TherapeuticChatbot._generate_rule_based_response`,
top to bottom, first match wins; each branch names the pool the method would
pass to `_select_response` (a branch returning a fixed string is a singleton
pool). -/
def ruleBasedPool (message : String) (sentiment : SentimentCategory)
    (ctx : EmotionalContext) : List String :=
  let ml := lowerStr message
  if sentiment = .crisis then crisisResponses
  else if greetingWords.any (fun w => strIn w ml) then greetingResponses
  else if sentiment = .stress ∨ strIn "stressed" ml ∨ strIn "anxious" ml then stressResponses
  else if sentiment = .sadness ∨ strIn "sad" ml ∨ strIn "depressed" ml then sadnessResponses
  else if sentiment = .anger ∨ strIn "angry" ml ∨ strIn "frustrated" ml then angerResponses
  else if sentiment = .fear ∨ strIn "afraid" ml ∨ strIn "scared" ml then fearResponses
  else if feelingWords.any (fun w => strIn w ml) then [feelingProbe]
  else if wordCount message < 5 then [shortPrompt]
  else if currentNonNeutral ctx ∧ (strIn "fine" ml ∨ strIn "okay" ml ∨ strIn "ok" ml) then
    mismatchResponses (ctx.current.getD "")
  else defaultResponses

/-- `_select_response`: `random.choice(responses)` with the random draw made
an explicit index (the emotional context only feeds a no-op branch in the
source). -/
def selectResponse (responses : List String) (rand : Nat) : String :=
  responses.getD (rand % responses.length) ""

/-- `_generate_rule_based_response`: pick from the pool the decision tree
selects. -/
def generateRuleBasedResponse (message : String) (sentiment : SentimentCategory)
    (ctx : EmotionalContext) (rand : Nat) : String :=
  selectResponse (ruleBasedPool message sentiment ctx) rand

/-- A conversation turn (`role`, `content`), used only to build the prompt. -/
structure ConvTurn where
  role : String
  content : String

/-- Python `text.strip()`: drop leading and trailing whitespace. -/
def pyStrip (s : String) : String :=
  ⟨((s.data.dropWhile Char.isWhitespace).reverse.dropWhile Char.isWhitespace).reverse⟩

/-- `_generate_openai_response`: the external API call's outcome is the
`Except` parameter (`.ok text` for a reply, `.error` for any raised
exception: network error, timeout, malformed response).  On success the
reply is returned stripped; on any exception the method falls back to the
rule-based generator. -/
def generateOpenaiResponse (message : String) (sentiment : SentimentCategory)
    (ctx : EmotionalContext) (conversationHistory : List ConvTurn)
    (outcome : Except String String) (rand : Nat) : String :=
  match outcome with
  | .ok text => pyStrip text
  | .error _ => generateRuleBasedResponse message sentiment ctx rand

/-- `TherapeuticChatbot.generate_response`.  `client = none` models an
unconfigured `openai_client`; `client = some outcome` a configured one whose
call ends in `outcome`. -/
def generateResponse (message : String) (currentEmotion : Option String)
    (emotionHistory : List EmotionRecord) (conversationHistory : List ConvTurn)
    (client : Option (Except String String)) (rand : Nat) : String :=
  let sentiment := analyzeSentiment message
  let ctx := buildEmotionalContext currentEmotion emotionHistory
  match client with
  | some outcome => generateOpenaiResponse message sentiment ctx conversationHistory outcome rand
  | none => generateRuleBasedResponse message sentiment ctx rand

/-- The fixed label set `EmotionDetector.emotion_labels`. -/
inductive EmotionLabel where
  | angry | disgust | fear | happy | sad | surprise | neutral
  deriving DecidableEq, BEq, Repr

/-- `self.emotion_labels`, in source order. -/
def emotionLabels : List EmotionLabel :=
  [.angry, .disgust, .fear, .happy, .sad, .surprise, .neutral]

/-- A raw per-face score map, as `_aggregate_emotions` reads it: only the
seven fixed labels contribute (`if emotion in aggregated`), and a label the
dict omits contributes nothing, so a map is a function with 0 at omitted
labels.  Scores are embedded as rationals. -/
def rawSum (faces : List (EmotionLabel → ℚ)) (k : EmotionLabel) : ℚ :=
  (faces.map (fun f => f k)).sum

/-- `total = sum(aggregated.values())`. -/
def totalScore (faces : List (EmotionLabel → ℚ)) : ℚ :=
  (emotionLabels.map (rawSum faces)).sum

/-- `EmotionDetector._aggregate_emotions`: per-label sums across faces,
divided by the grand total only when that total is positive, and returned
unnormalized otherwise. -/
def aggregateEmotions (faces : List (EmotionLabel → ℚ)) : EmotionLabel → ℚ :=
  if totalScore faces > 0 then fun k => rawSum faces k / totalScore faces
  else rawSum faces

section Lemmas

theorem maxFirst_mem (b : SentimentCategory × Nat) (l : List (SentimentCategory × Nat)) :
    maxFirst b l ∈ b :: l := by
  induction l generalizing b with
  | nil => simp [maxFirst]
  | cons x xs ih =>
    have h := ih (if x.2 > b.2 then x else b)
    rcases List.mem_cons.mp h with h | h
    · by_cases hc : x.2 > b.2
      · simp only [maxFirst]
        rw [if_pos hc] at h ⊢
        simp [h]
      · simp only [maxFirst]
        rw [if_neg hc] at h ⊢
        simp [h]
    · simp only [maxFirst]
      right; right; exact h

theorem maxFirst_fst_ne_crisis (st sa an fe : Nat) :
    (maxFirst (.stress, st) [(.sadness, sa), (.anger, an), (.fear, fe), (.neutral, 0)]).1
      ≠ SentimentCategory.crisis := by
  have h := maxFirst_mem (SentimentCategory.stress, st)
    [(.sadness, sa), (.anger, an), (.fear, fe), (.neutral, 0)]
  simp only [List.mem_cons, List.not_mem_nil, or_false] at h
  rcases h with h | h | h | h | h <;> rw [h] <;> simp

theorem analyzeSentiment_crisis_iff (msg : String) :
    analyzeSentiment msg = .crisis ↔ 0 < countHits crisisKeywords (lowerStr msg) := by
  constructor
  · intro h
    by_contra hc
    push_neg at hc
    have hc0 : countHits crisisKeywords (lowerStr msg) = 0 := Nat.le_zero.mp hc
    simp only [analyzeSentiment, hc0] at h
    rw [if_neg (by omega)] at h
    split_ifs at h
    exact maxFirst_fst_ne_crisis _ _ _ _ h
  · intro h
    simp [analyzeSentiment, h]

theorem maxFirst_spec (st sa an fe : Nat) :
    (if 0 < (maxFirst (.stress, st) [(.sadness, sa), (.anger, an), (.fear, fe), (.neutral, 0)]).2
     then (maxFirst (.stress, st) [(.sadness, sa), (.anger, an), (.fear, fe), (.neutral, 0)]).1
     else .neutral) = specSelect st sa an fe := by
  simp only [maxFirst, specSelect]
  split_ifs <;> first | rfl | omega

theorem mismatchResponses_ne_crisis (e : String) :
    mismatchResponses e ≠ crisisResponses := by
  intro h
  have h2 := congrArg (fun l => l.getD 1 "") h
  simp [mismatchResponses, crisisResponses] at h2

theorem ruleBasedPool_eq_crisis_iff (msg : String) (s : SentimentCategory)
    (ctx : EmotionalContext) :
    ruleBasedPool msg s ctx = crisisResponses ↔ s = .crisis := by
  simp only [ruleBasedPool]
  split_ifs with h1 h2 h3 h4 h5 h6 h7 h8 h9
  · simp [h1]
  · exact iff_of_false (by decide) h1
  · exact iff_of_false (by decide) h1
  · exact iff_of_false (by decide) h1
  · exact iff_of_false (by decide) h1
  · exact iff_of_false (by decide) h1
  · exact iff_of_false (by decide) h1
  · exact iff_of_false (by decide) h1
  · exact iff_of_false (mismatchResponses_ne_crisis _) h1
  · exact iff_of_false (by decide) h1

theorem ruleBasedPool_ne_nil (msg : String) (s : SentimentCategory)
    (ctx : EmotionalContext) : ruleBasedPool msg s ctx ≠ [] := by
  simp only [ruleBasedPool]
  split_ifs <;>
    simp [crisisResponses, greetingResponses, stressResponses, sadnessResponses,
      angerResponses, fearResponses, mismatchResponses, defaultResponses]

theorem selectResponse_mem (responses : List String) (rand : Nat)
    (h : responses ≠ []) : selectResponse responses rand ∈ responses := by
  have hl : 0 < responses.length := List.length_pos.mpr h
  have hm : rand % responses.length < responses.length := Nat.mod_lt _ hl
  simp only [selectResponse]
  rw [List.getD_eq_getElem _ _ hm]
  exact List.getElem_mem hm

theorem pickFirstMax_le (f : String → Nat) (b : String) (l : List String) :
    ∀ x ∈ b :: l, f x ≤ f (pickFirstMax f b l) := by
  induction l generalizing b with
  | nil =>
    intro x hx
    simp only [List.mem_cons, List.not_mem_nil, or_false] at hx
    subst hx
    simp [pickFirstMax]
  | cons y ys ih =>
    intro x hx
    simp only [pickFirstMax]
    rcases List.mem_cons.mp hx with rfl | hx2
    · have hb : f x ≤ f (if f y > f x then y else x) := by
        split_ifs with h
        · omega
        · exact le_refl _
      exact le_trans hb (ih _ _ (List.mem_cons_self _ _))
    · rcases List.mem_cons.mp hx2 with rfl | hx3
      · have hy : f x ≤ f (if f x > f b then x else b) := by
          split_ifs with h
          · exact le_refl _
          · omega
        exact le_trans hy (ih _ _ (List.mem_cons_self _ _))
      · exact ih _ x (List.mem_cons_of_mem _ hx3)

theorem pickFirstMax_split (f : String → Nat) (b : String) (l : List String) :
    ∃ l1 l2, b :: l = l1 ++ pickFirstMax f b l :: l2 ∧
      ∀ y ∈ l1, f y < f (pickFirstMax f b l) := by
  induction l generalizing b with
  | nil => exact ⟨[], [], by simp [pickFirstMax], by simp⟩
  | cons x xs ih =>
    simp only [pickFirstMax]
    by_cases hc : f x > f b
    · rw [if_pos hc]
      obtain ⟨l1, l2, heq, hlt⟩ := ih x
      refine ⟨b :: l1, l2, ?_, ?_⟩
      · simpa using heq
      · intro y hy
        rcases List.mem_cons.mp hy with rfl | hy2
        · have hxr : f x ≤ f (pickFirstMax f x xs) :=
            pickFirstMax_le f x xs x (List.mem_cons_self _ _)
          omega
        · exact hlt y hy2
    · rw [if_neg hc]
      obtain ⟨l1, l2, heq, hlt⟩ := ih b
      cases l1 with
      | nil =>
        simp only [List.nil_append] at heq
        have hb : b = pickFirstMax f b xs := (List.cons.injEq _ _ _ _).mp heq |>.1
        refine ⟨[], x :: xs, ?_, by simp⟩
        rw [← hb]
        rfl
      | cons a l1' =>
        simp only [List.cons_append] at heq
        have ha : a = b := ((List.cons.injEq _ _ _ _).mp heq).1.symm
        have hxs : xs = l1' ++ pickFirstMax f b xs :: l2 := ((List.cons.injEq _ _ _ _).mp heq).2
        subst ha
        refine ⟨a :: x :: l1', l2, ?_, ?_⟩
        · rw [List.cons_append, List.cons_append, ← hxs]
        · intro y hy
          rcases List.mem_cons.mp hy with rfl | hy2
          · exact hlt y (List.mem_cons_self _ _)
          · rcases List.mem_cons.mp hy2 with rfl | hy3
            · have := hlt a (List.mem_cons_self _ _)
              omega
            · exact hlt y (List.mem_cons_of_mem _ hy3)

theorem pickFirstMax_mem (f : String → Nat) (b : String) (l : List String) :
    pickFirstMax f b l ∈ b :: l := by
  obtain ⟨l1, l2, heq, _⟩ := pickFirstMax_split f b l
  rw [heq]
  exact List.mem_append.mpr (Or.inr (List.mem_cons_self _ _))

theorem firstIdx_append_left (x : String) (l1 l2 : List String) (h : x ∉ l1) :
    firstIdx x (l1 ++ l2) = l1.length + firstIdx x l2 := by
  induction l1 with
  | nil => simp
  | cons a t ih =>
    have hne : a ≠ x := by
      rintro rfl
      exact h (List.mem_cons_self _ _)
    have hnt : x ∉ t := fun hm => h (List.mem_cons_of_mem _ hm)
    rw [List.cons_append]
    simp only [firstIdx]
    rw [if_neg hne, ih hnt]
    simp only [List.length_cons]
    omega

theorem pickFirstMax_firstIdx_le (f : String → Nat) (b : String) (l : List String)
    (x : String) (hcnt : f x = f (pickFirstMax f b l)) :
    firstIdx (pickFirstMax f b l) (b :: l) ≤ firstIdx x (b :: l) := by
  obtain ⟨l1, l2, heq, hlt⟩ := pickFirstMax_split f b l
  have hmnot : pickFirstMax f b l ∉ l1 := fun hm => lt_irrefl _ (hlt _ hm)
  have hxnot : x ∉ l1 := fun hxm => by
    have := hlt x hxm
    omega
  rw [heq, firstIdx_append_left _ l1 _ hmnot, firstIdx_append_left _ l1 _ hxnot]
  have hz : firstIdx (pickFirstMax f b l) (pickFirstMax f b l :: l2) = 0 := by
    simp [firstIdx]
  omega

theorem modeOf_spec (l : List String) (h : l ≠ []) :
    ∃ m, modeOf l = some m ∧ m ∈ l ∧
      (∀ x ∈ l, l.count x ≤ l.count m) ∧
      (∀ x ∈ l, l.count x = l.count m → firstIdx m l ≤ firstIdx x l) := by
  obtain ⟨b, t, rfl⟩ := List.exists_cons_of_ne_nil h
  refine ⟨pickFirstMax (fun x => (b :: t).count x) b t, rfl,
    pickFirstMax_mem _ _ _,
    fun x hx => pickFirstMax_le (fun y => (b :: t).count y) b t x hx,
    fun x hx hcnt => pickFirstMax_firstIdx_le (fun y => (b :: t).count y) b t x hcnt⟩

theorem list_sum_nonneg_all_zero (l : List ℚ) (h : ∀ x ∈ l, 0 ≤ x) (hs : l.sum = 0) :
    ∀ x ∈ l, x = 0 := by
  induction l with
  | nil => simp
  | cons a t ih =>
    have ha : 0 ≤ a := h a (List.mem_cons_self _ _)
    have ht : ∀ x ∈ t, 0 ≤ x := fun x hx => h x (List.mem_cons_of_mem _ hx)
    have hts : 0 ≤ t.sum := List.sum_nonneg ht
    rw [List.sum_cons] at hs
    have ha0 : a = 0 := by linarith
    have hts0 : t.sum = 0 := by linarith
    intro x hx
    rcases List.mem_cons.mp hx with rfl | hx2
    · exact ha0
    · exact ih ht hts0 x hx2

theorem sum_map_div (l : List ℚ) (T : ℚ) :
    (l.map (fun x => x / T)).sum = l.sum / T := by
  induction l with
  | nil => simp
  | cons a t ih => simp [ih, add_div]

end Lemmas

section Claims

/-- C2: any message containing a crisis phrase as a substring of its lowered
text classifies as `crisis`, whatever the other categories' keyword counts. -/
theorem c2_crisis_phrase_overrides (msg : String)
    (h : ∃ p ∈ crisisKeywords, strIn p (lowerStr msg) = true) :
    analyzeSentiment msg = .crisis := by
  rcases h with ⟨p, hp, hs⟩
  exact (analyzeSentiment_crisis_iff msg).mpr (List.countP_pos_iff.mpr ⟨p, hp, hs⟩)

/-- C2 witness: a message full of stress and sadness keywords still comes out
`crisis` because of the phrase "kill myself". -/
theorem c2_witness :
    analyzeSentiment "I am stressed, sad and worried and want to kill myself" =
      .crisis :=
  c2_crisis_phrase_overrides _ (by decide)

/-- C9: a message with no crisis phrase classifies as the non-crisis category
with the highest keyword count, ties broken stress > sadness > anger > fear,
and as `neutral` when every count is zero (`specSelect` states the spec's rule). -/
theorem c9_noncrisis_selection (msg : String)
    (h : countHits crisisKeywords (lowerStr msg) = 0) :
    analyzeSentiment msg =
      specSelect (countHits stressKeywords (lowerStr msg))
        (countHits sadnessKeywords (lowerStr msg))
        (countHits angerKeywords (lowerStr msg))
        (countHits fearKeywords (lowerStr msg)) := by
  simp only [analyzeSentiment, h]
  rw [if_neg (by omega)]
  exact maxFirst_spec _ _ _ _

/-- C9 witness: "I feel sad and angry" has one sadness hit and one anger hit;
the tie resolves to `sadness`. -/
theorem c9_witness :
    analyzeSentiment "I feel sad and angry" =
      specSelect (countHits stressKeywords (lowerStr "I feel sad and angry"))
        (countHits sadnessKeywords (lowerStr "I feel sad and angry"))
        (countHits angerKeywords (lowerStr "I feel sad and angry"))
        (countHits fearKeywords (lowerStr "I feel sad and angry")) :=
  c9_noncrisis_selection _ (by decide)

/-- C10: whenever the classifier returns `crisis` the standalone detector
fires (its indicator list extends the classifier's phrase list); the converse
fails at "I give up", where `detect_crisis` is true, the classifier is not
`crisis`, and the rule-based tree serves a non-crisis pool. -/
theorem c10_detector_classifier_relation :
    (∀ msg : String, analyzeSentiment msg = .crisis → detectCrisis msg = true) ∧
    detectCrisis "I give up" = true ∧
    analyzeSentiment "I give up" ≠ .crisis ∧
    ruleBasedPool "I give up" (analyzeSentiment "I give up") ⟨none, none⟩ ≠ crisisResponses := by
  refine ⟨?_, by decide, by decide, by decide⟩
  intro msg h
  have hc := (analyzeSentiment_crisis_iff msg).mp h
  rcases List.countP_pos_iff.mp hc with ⟨p, hp, hs⟩
  have hp' : p ∈ crisisIndicators := by
    have hsub : ∀ q ∈ crisisKeywords, q ∈ crisisIndicators := by decide
    exact hsub p hp
  exact List.any_eq_true.mpr ⟨p, hp', hs⟩

/-- C1 counterexample: a crisis message served by a configured, healthy
generator gets the generator's text back — not a message from the fixed
crisis pool — so the crisis path does depend on the generative collaborator. -/
theorem c1_counterexample :
    analyzeSentiment "I want to commit suicide" = .crisis ∧
    generateResponse "I want to commit suicide" none [] []
        (some (Except.ok "Generated reply")) 0 = "Generated reply" ∧
    "Generated reply" ∉ crisisResponses := by
  refine ⟨by decide, ?_, by decide⟩
  rfl

/-- C1 amended: only the rule-based path guards the crisis pool — there the
pool is selected iff the classifier returns `crisis` — while a configured
generator whose call succeeds answers every message, crisis included, with
its own (trimmed) text. -/
theorem c1_amended :
    (∀ (msg : String) (ctx : EmotionalContext),
        ruleBasedPool msg (analyzeSentiment msg) ctx = crisisResponses ↔
          analyzeSentiment msg = .crisis) ∧
    (∀ (msg : String) (cur : Option String) (hist : List EmotionRecord)
        (conv : List ConvTurn) (t : String) (rand : Nat),
        generateResponse msg cur hist conv (some (Except.ok t)) rand = pyStrip t) :=
  ⟨fun msg ctx => ruleBasedPool_eq_crisis_iff msg _ ctx, fun _ _ _ _ _ _ => rfl⟩

/-- C3: a generator failure (any raised exception) or an unconfigured
generator always yields the rule-based response, which is an element of the
pool the rule-based tree selects — never a propagated error. -/
theorem c3_generator_failure_falls_back (msg : String) (cur : Option String)
    (hist : List EmotionRecord) (conv : List ConvTurn) (err : String) (rand : Nat) :
    generateResponse msg cur hist conv (some (Except.error err)) rand =
      generateRuleBasedResponse msg (analyzeSentiment msg)
        (buildEmotionalContext cur hist) rand ∧
    generateResponse msg cur hist conv none rand =
      generateRuleBasedResponse msg (analyzeSentiment msg)
        (buildEmotionalContext cur hist) rand ∧
    generateRuleBasedResponse msg (analyzeSentiment msg)
        (buildEmotionalContext cur hist) rand ∈
      ruleBasedPool msg (analyzeSentiment msg) (buildEmotionalContext cur hist) :=
  ⟨rfl, rfl, selectResponse_mem _ _ (ruleBasedPool_ne_nil _ _ _)⟩

/-- C4 counterexample: with facial emotion "sad" and the message "I'm fine,
everything is okay", the rule-based response (shown at draw 0) is a greeting,
not a mismatch acknowledgment: the greeting keyword "hi" occurs inside
"everything" and that branch precedes mismatch detection. -/
theorem c4_counterexample :
    generateRuleBasedResponse "I'm fine, everything is okay"
        (analyzeSentiment "I'm fine, everything is okay")
        (buildEmotionalContext (some "sad") []) 0 ∈ greetingResponses ∧
    generateRuleBasedResponse "I'm fine, everything is okay"
        (analyzeSentiment "I'm fine, everything is okay")
        (buildEmotionalContext (some "sad") []) 0 ∉ mismatchResponses "sad" := by
  decide

/-- C4 amended: in the mismatch scenario every possible draw comes from the
greeting pool (the substring "hi" of "everything" wins first), and even in
the mismatch pool itself only the first of the three strings names the
detected emotion "sad" verbatim. -/
theorem c4_amended :
    (∀ rand : Nat,
        generateRuleBasedResponse "I'm fine, everything is okay"
          (analyzeSentiment "I'm fine, everything is okay")
          (buildEmotionalContext (some "sad") []) rand ∈ greetingResponses) ∧
    strIn "sad" ((mismatchResponses "sad").getD 0 "") = true ∧
    strIn "sad" ((mismatchResponses "sad").getD 1 "") = false ∧
    strIn "sad" ((mismatchResponses "sad").getD 2 "") = false := by
  refine ⟨?_, by decide, by decide, by decide⟩
  intro rand
  have hpool : ruleBasedPool "I'm fine, everything is okay"
      (analyzeSentiment "I'm fine, everything is okay")
      (buildEmotionalContext (some "sad") []) = greetingResponses := by decide
  have hmem := selectResponse_mem
    (ruleBasedPool "I'm fine, everything is okay"
      (analyzeSentiment "I'm fine, everything is okay")
      (buildEmotionalContext (some "sad") [])) rand (ruleBasedPool_ne_nil _ _ _)
  rw [hpool] at hmem
  simpa [generateRuleBasedResponse, hpool] using hmem

/-- C5 counterexample: for the single all-zero face the aggregation returns
weight 0 at `neutral` — the all-zero map, not the all-mass-on-neutral vector. -/
theorem c5_counterexample :
    aggregateEmotions [fun _ => 0] EmotionLabel.neutral = 0 ∧
    aggregateEmotions [fun _ => 0] EmotionLabel.neutral ≠ 1 := by
  norm_num [aggregateEmotions, totalScore, rawSum, emotionLabels]

/-- C5 amended: on a non-empty non-negative input whose total is zero the
aggregation skips normalization and returns the raw per-label sums unchanged,
which is the all-zero map (every label 0.0), not {neutral: 1.0}. -/
theorem c5_amended (faces : List (EmotionLabel → ℚ)) (hne : faces ≠ [])
    (hnn : ∀ f ∈ faces, ∀ k, 0 ≤ f k) (hz : totalScore faces = 0) :
    ∀ k, aggregateEmotions faces k = 0 := by
  have hraw : ∀ j : EmotionLabel, 0 ≤ rawSum faces j := by
    intro j
    apply List.sum_nonneg
    intro x hx
    rw [List.mem_map] at hx
    obtain ⟨f, hf, rfl⟩ := hx
    exact hnn f hf j
  have hagg : aggregateEmotions faces = rawSum faces := by
    simp [aggregateEmotions, hz]
  intro k
  rw [hagg]
  have hk : rawSum faces k ∈ emotionLabels.map (rawSum faces) :=
    List.mem_map_of_mem _ (by cases k <;> simp [emotionLabels])
  refine list_sum_nonneg_all_zero _ ?_ hz _ hk
  intro x hx
  rw [List.mem_map] at hx
  obtain ⟨j, _, rfl⟩ := hx
  exact hraw j

/-- C5 witness: the amended statement evaluated on one all-zero face. -/
theorem c5_witness :
    aggregateEmotions [fun _ => (0 : ℚ)] EmotionLabel.sad = 0 :=
  c5_amended [fun _ => 0] (by simp)
    (by
      intro f hf k
      rw [List.mem_singleton] at hf
      subst hf
      norm_num)
    (by norm_num [totalScore, rawSum, emotionLabels]) EmotionLabel.sad

/-- C6 counterexample: the valid (all-zero, hence non-negative) non-empty
input `[fun _ => 0]` produces weights summing to 0, not 1 within 1e-6. -/
theorem c6_counterexample :
    1 / 1000000 < |(emotionLabels.map (aggregateEmotions [fun _ => (0 : ℚ)])).sum - 1| := by
  norm_num [aggregateEmotions, totalScore, rawSum, emotionLabels]

/-- C6 amended: for a non-empty non-negative raw sequence whose total is
positive, the normalized weights sum to exactly 1, hence to 1 within 1e-6. -/
theorem c6_amended (faces : List (EmotionLabel → ℚ)) (hne : faces ≠ [])
    (hnn : ∀ f ∈ faces, ∀ k, 0 ≤ f k) (hpos : 0 < totalScore faces) :
    (emotionLabels.map (aggregateEmotions faces)).sum = 1 ∧
    |(emotionLabels.map (aggregateEmotions faces)).sum - 1| ≤ 1 / 1000000 := by
  have hagg : aggregateEmotions faces = fun k => rawSum faces k / totalScore faces := by
    simp [aggregateEmotions, hpos]
  have h1 : (emotionLabels.map (aggregateEmotions faces)).sum = 1 := by
    rw [hagg]
    have hmm : emotionLabels.map (fun k => rawSum faces k / totalScore faces)
        = (emotionLabels.map (rawSum faces)).map (fun x => x / totalScore faces) := by
      rw [List.map_map]
      rfl
    rw [hmm, sum_map_div]
    exact div_self (ne_of_gt hpos)
  refine ⟨h1, ?_⟩
  rw [h1]
  norm_num

/-- C6 witness: the amended statement evaluated on one face with every
label weighted 1 (total 7). -/
theorem c6_witness :
    (emotionLabels.map (aggregateEmotions [fun _ => (1 : ℚ)])).sum = 1 ∧
    |(emotionLabels.map (aggregateEmotions [fun _ => (1 : ℚ)])).sum - 1| ≤ 1 / 1000000 :=
  c6_amended [fun _ => 1] (by simp)
    (by
      intro f hf k
      rw [List.mem_singleton] at hf
      subst hf
      norm_num)
    (by norm_num [totalScore, rawSum, emotionLabels])

/-- C7 counterexample: a face with a negative angry weight is not rejected —
no error path exists — and the aggregation returns a vector carrying the
negative weight through. -/
theorem c7_counterexample :
    aggregateEmotions [fun k => if k = EmotionLabel.angry then (-1 : ℚ) else 0]
        EmotionLabel.angry = -1 ∧
    aggregateEmotions [fun k => if k = EmotionLabel.angry then (-1 : ℚ) else 0]
        EmotionLabel.sad = 0 := by
  have ht : totalScore [fun k => if k = EmotionLabel.angry then (-1 : ℚ) else 0] = -1 := by
    simp [totalScore, rawSum, emotionLabels]
  constructor <;>
    · unfold aggregateEmotions
      rw [ht, if_neg (by norm_num)]
      simp [rawSum]

/-- C7 amended: negative weights are silently summed, never rejected: any
single face whose only weight is a negative angry score yields an output
whose angry entry is that same negative number. -/
theorem c7_amended (q : ℚ) (hq : q < 0) :
    aggregateEmotions [fun k => if k = EmotionLabel.angry then q else 0]
      EmotionLabel.angry = q := by
  have ht : totalScore [fun k => if k = EmotionLabel.angry then q else 0] = q := by
    simp [totalScore, rawSum, emotionLabels]
  unfold aggregateEmotions
  rw [ht, if_neg (by linarith)]
  simp [rawSum]

/-- C7 witness: the amended statement at weight -1. -/
theorem c7_witness :
    aggregateEmotions [fun k => if k = EmotionLabel.angry then (-1 : ℚ) else 0]
      EmotionLabel.angry = -1 :=
  c7_amended (-1) (by norm_num)

/-- C8 counterexample: for the window [sad, happy, sad, angry, happy] the
computed pattern is `sad` (first-encountered among the tied labels), not
`happy` as the most-recent tie-break would give. -/
theorem c8_counterexample :
    (buildEmotionalContext none
      [⟨some "sad"⟩, ⟨some "happy"⟩, ⟨some "sad"⟩, ⟨some "angry"⟩, ⟨some "happy"⟩]).recentPattern
      ≠ some "happy" ∧
    (buildEmotionalContext none
      [⟨some "sad"⟩, ⟨some "happy"⟩, ⟨some "sad"⟩, ⟨some "angry"⟩, ⟨some "happy"⟩]).recentPattern
      = some "sad" := by
  decide

/-- C8 amended: for every non-empty history the recent pattern is a most
frequent dominant label of the 5-element window, with frequency ties broken
in favour of the label whose first occurrence is earliest; in particular the
window [sad, happy, sad, angry, happy] resolves to `sad`. -/
theorem c8_amended :
    (∀ (cur : Option String) (hist : List EmotionRecord), hist ≠ [] →
      ∃ m, (buildEmotionalContext cur hist).recentPattern = some m ∧
        m ∈ windowOf hist ∧
        (∀ x ∈ windowOf hist, (windowOf hist).count x ≤ (windowOf hist).count m) ∧
        (∀ x ∈ windowOf hist, (windowOf hist).count x = (windowOf hist).count m →
          firstIdx m (windowOf hist) ≤ firstIdx x (windowOf hist))) ∧
    (buildEmotionalContext none
      [⟨some "sad"⟩, ⟨some "happy"⟩, ⟨some "sad"⟩, ⟨some "angry"⟩, ⟨some "happy"⟩]).recentPattern
      = some "sad" := by
  constructor
  · intro cur hist hne
    have hwne : windowOf hist ≠ [] := by
      simp only [windowOf, last5]
      intro hcon
      rw [List.map_eq_nil_iff] at hcon
      rw [List.drop_eq_nil_iff] at hcon
      have := List.length_pos.mpr hne
      omega
    obtain ⟨m, hm, hmem, hle, htie⟩ := modeOf_spec _ hwne
    have hie : hist.isEmpty = false := by
      cases hist with
      | nil => exact absurd rfl hne
      | cons a t => rfl
    refine ⟨m, ?_, hmem, hle, htie⟩
    simp [buildEmotionalContext, hie, hm]
  · decide

end Claims

end MentalCareBot
